import Mathlib

/-!
Verification development for the templatedx core engine
(packages/templatedx-python/src/templatedx).

The Python source is shallowly embedded: dicts become association lists
with insert-replace semantics, dynamic values become the closed tagged
union `Value`, exceptions become `Except Err`, and in-place scope
mutation is threaded as explicit state (faithful here because the
embedded code never mutates a scope that is aliased as another live
scope's parent, and never mutates the shared map during a transform).
Python numbers are embedded exactly: `int` as `Int`, `float` as an
exact rational (IEEE rounding is not modelled; no claim depends on
float precision, and division by zero raises before any float is
produced).
-/

set_option maxRecDepth 10000

namespace TemplateDX

/-- Association-list lookup, mirroring Python `dict.get`. -/
def dictGet {α : Type} : List (String × α) → String → Option α
  | [], _ => none
  | (k, v) :: rest, key => if k = key then some v else dictGet rest key

/-- Association-list store, mirroring Python `dict[key] = v`
(replace in place when present, append otherwise). -/
def dictInsert {α : Type} (m : List (String × α)) (key : String) (v : α) :
    List (String × α) :=
  if (dictGet m key).isSome then
    m.map (fun kv => if kv.1 = key then (key, v) else kv)
  else
    m ++ [(key, v)]

/-- Association-list delete, mirroring Python `dict.pop(key, None)`. -/
def dictRemove {α : Type} (m : List (String × α)) (key : String) :
    List (String × α) :=
  m.filter (fun kv => kv.1 ≠ key)

/-- Mirrors Python `m.update(overlay)`: every key of the overlay is
stored into `m`, overlay values winning. -/
def dictUpdate {α : Type} (m overlay : List (String × α)) :
    List (String × α) :=
  overlay.foldl (fun acc kv => dictInsert acc kv.1 kv.2) m

/-! ## Registries (filter_registry.py, tag_registry.py)

The Python classes keep a class-level (process-wide) dict plus a
per-instance dict.  The class-level dict is mutable global state; it is
embedded as an explicit value threaded alongside each instance, so a
"current global table" is passed to every lookup exactly as the live
`cls._global_filters` is consulted at lookup time in the source. -/

/-- `FilterRegistry.__init__`: instance table `self._filters`. -/
structure FilterRegistry (F : Type) where
  filters : List (String × F)

/-- A fresh instance registry (empty instance table). -/
def FilterRegistry.new {F : Type} : FilterRegistry F := ⟨[]⟩

/-- `FilterRegistry.register_global`: mutate the class-level table. -/
def FilterRegistry.registerGlobal {F : Type} (g : List (String × F))
    (name : String) (f : F) : List (String × F) :=
  dictInsert g name f

/-- `FilterRegistry.register`: mutate the instance table. -/
def FilterRegistry.register {F : Type} (r : FilterRegistry F)
    (name : String) (f : F) : FilterRegistry F :=
  ⟨dictInsert r.filters name f⟩

/-- `FilterRegistry.get`: `self._filters.get(name) or
self._global_filters.get(name)` — instance first, then the live global
table.  (`or` on function values coincides with `Option.orElse` since
functions are never falsy.) -/
def FilterRegistry.get {F : Type} (r : FilterRegistry F)
    (g : List (String × F)) (name : String) : Option F :=
  (dictGet r.filters name).orElse (fun _ => dictGet g name)

/-- `FilterRegistry.remove`: `self._filters.pop(name, None)`. -/
def FilterRegistry.remove {F : Type} (r : FilterRegistry F)
    (name : String) : FilterRegistry F :=
  ⟨dictRemove r.filters name⟩

/-- `FilterRegistry.copy_from_global`: `self._filters.update(self._global_filters)`. -/
def FilterRegistry.copyFromGlobal {F : Type} (r : FilterRegistry F)
    (g : List (String × F)) : FilterRegistry F :=
  ⟨dictUpdate r.filters g⟩

/-- `TemplateDX.__init__` (engine.py): a fresh instance registry with
`copy_from_global()` applied once, given the global table at
construction time. -/
def FilterRegistry.construct {F : Type} (g : List (String × F)) :
    FilterRegistry F :=
  FilterRegistry.new.copyFromGlobal g

/-- `TagPluginRegistry.__init__`: instance table `self._plugins`. -/
structure TagPluginRegistry (P : Type) where
  plugins : List (String × P)

/-- A fresh instance registry (empty instance table). -/
def TagPluginRegistry.new {P : Type} : TagPluginRegistry P := ⟨[]⟩

/-- `TagPluginRegistry.register_global`: store the plugin under every
given name in the class-level table. -/
def TagPluginRegistry.registerGlobal {P : Type} (g : List (String × P))
    (plugin : P) (names : List String) : List (String × P) :=
  names.foldl (fun acc n => dictInsert acc n plugin) g

/-- `TagPluginRegistry.register`: store the plugin under every given
name in the instance table. -/
def TagPluginRegistry.register {P : Type} (r : TagPluginRegistry P)
    (plugin : P) (names : List String) : TagPluginRegistry P :=
  ⟨names.foldl (fun acc n => dictInsert acc n plugin) r.plugins⟩

/-- `TagPluginRegistry.get`: instance table first, then the live global
table. -/
def TagPluginRegistry.get {P : Type} (r : TagPluginRegistry P)
    (g : List (String × P)) (name : String) : Option P :=
  (dictGet r.plugins name).orElse (fun _ => dictGet g name)

/-- `TagPluginRegistry.remove`: `self._plugins.pop(name, None)`. -/
def TagPluginRegistry.remove {P : Type} (r : TagPluginRegistry P)
    (name : String) : TagPluginRegistry P :=
  ⟨dictRemove r.plugins name⟩

/-- `TagPluginRegistry.copy_from_global`. -/
def TagPluginRegistry.copyFromGlobal {P : Type} (r : TagPluginRegistry P)
    (g : List (String × P)) : TagPluginRegistry P :=
  ⟨dictUpdate r.plugins g⟩

/-- Engine construction for the tag registry. -/
def TagPluginRegistry.construct {P : Type} (g : List (String × P)) :
    TagPluginRegistry P :=
  TagPluginRegistry.new.copyFromGlobal g

/-! ## Dynamic values

The closed tagged union of runtime values the engine manipulates:
Python `None`/`bool`/`int`/`float`/`str`/`list`/`dict` (string keys, as
built by the evaluator and the engine's props wrapping).  Floats are
carried as exact rationals.  Host objects with attributes (the
`hasattr` branch of member access) are outside the model; the
private-name check that the claims are about fires before that branch
is reached. -/

inductive Value where
  | vnull : Value
  | vbool (b : Bool) : Value
  | vint (n : Int) : Value
  | vfloat (q : ℚ) : Value
  | vstr (s : String) : Value
  | vlist (xs : List Value) : Value
  | vmap (m : List (String × Value)) : Value
deriving Repr

/-- Python truthiness `bool(x)`. -/
def Value.truthy : Value → Bool
  | .vnull => false
  | .vbool b => b
  | .vint n => n ≠ 0
  | .vfloat q => q ≠ 0
  | .vstr s => s ≠ ""
  | .vlist xs => ¬ xs.isEmpty
  | .vmap m => ¬ m.isEmpty

/-- View a value as an int-like number (Python `bool` is an `int`
subclass, so `True` counts as `1`). -/
def Value.asIntNum : Value → Option Int
  | .vbool b => some (if b then 1 else 0)
  | .vint n => some n
  | _ => none

/-- View a value as a number (rational); int-like values are exact. -/
def Value.asNum : Value → Option ℚ
  | .vbool b => some (if b then 1 else 0)
  | .vint n => some (n : ℚ)
  | .vfloat q => some q
  | _ => none

/-- Python `==` on embedded values: numeric kinds compare by value
across `bool`/`int`/`float`; containers compare element-wise; values of
unrelated kinds compare unequal; never raises.  (Python dict `==` is
key-set based rather than order-sensitive; maps are compared here
pairwise in order — no embedded code path compares two maps.) -/
def Value.pyEq : Value → Value → Bool
  | .vnull, .vnull => true
  | .vstr a, .vstr b => a = b
  | .vlist a, .vlist b => pyEqList a b
  | .vmap a, .vmap b => pyEqMap a b
  | a, b =>
    match a.asNum, b.asNum with
    | some x, some y => x = y
    | _, _ => false
where
  /-- element-wise list equality -/
  pyEqList : List Value → List Value → Bool
    | [], [] => true
    | x :: xs, y :: ys => pyEq x y && pyEqList xs ys
    | _, _ => false
  /-- pairwise map equality (keys in order, values via `pyEq`) -/
  pyEqMap : List (String × Value) → List (String × Value) → Bool
    | [], [] => true
    | (k, v) :: rest, (k2, w) :: rest2 =>
      k = k2 && pyEq v w && pyEqMap rest rest2
    | _, _ => false

/-! ## Error taxonomy (expression.py, transformer.py)

`LexerError`, `ParseError`, `EvaluationError` from expression.py,
`ValueError` raised by the transformer / plugins, and `TypeError` for
host-level failures of dynamic operators on unsupported operand kinds
(whose exact messages are approximated). -/

inductive Err where
  | lexError (msg : String) : Err
  | parseError (msg : String) : Err
  | evaluationError (msg : String) : Err
  | valueError (msg : String) : Err
  | typeError (msg : String) : Err
deriving Repr, DecidableEq

/-- Python `str(e)`: the message an exception interpolates as. -/
def Err.msg : Err → String
  | .lexError m => m
  | .parseError m => m
  | .evaluationError m => m
  | .valueError m => m
  | .typeError m => m

/-! ## Scope (scope.py)

In-place mutation (`set_local`) is modelled functionally: operations
return the updated scope and callers thread it explicitly. -/

inductive Scope where
  | mk (vars : List (String × Value))
       (shared : List (String × Value))
       (parent : Option Scope) : Scope

/-- The local variable table (`self._variables`). -/
def Scope.varTable : Scope → List (String × Value)
  | .mk v _ _ => v

/-- The shared table. -/
def Scope.shared : Scope → List (String × Value)
  | .mk _ s _ => s

/-- The parent scope, when any. -/
def Scope.parent : Scope → Option Scope
  | .mk _ _ p => p

/-- `Scope.get`: variables, then the parent chain, then (only at a
parentless scope) shared; unresolved resolves to null. -/
def Scope.get : Scope → String → Value
  | .mk vars shr par, key =>
    match dictGet vars key with
    | some v => v
    | none =>
      match par with
      | some p => p.get key
      | none =>
        match dictGet shr key with
        | some v => v
        | none => .vnull

/-- `Scope.get_local`: local variables only (`dict.get`, so `None`
when absent). -/
def Scope.getLocal (s : Scope) (key : String) : Option Value :=
  dictGet s.varTable key

/-- `Scope.get_shared`: shared table only. -/
def Scope.getShared (s : Scope) (key : String) : Option Value :=
  dictGet s.shared key

/-- `Scope.set_local` (functional rendering of the in-place update). -/
def Scope.setLocal (s : Scope) (key : String) (v : Value) : Scope :=
  .mk (dictInsert s.varTable key v) s.shared s.parent

/-- `Scope.set_shared` (functional rendering; never invoked by the
embedded transformer or plugins). -/
def Scope.setShared (s : Scope) (key : String) (v : Value) : Scope :=
  .mk s.varTable (dictInsert s.shared key v) s.parent

/-- `Scope.create_child`: new scope whose parent is the creator and
whose shared table is the creator's (shared by reference in the source;
never mutated during a transform, so copying the value is faithful). -/
def Scope.createChild (s : Scope) (vars : List (String × Value)) : Scope :=
  .mk vars s.shared (some s)

/-! ## Lexer (expression.py, ExpressionLexer)

Tokens are embedded without their `position` field (the parser never
reads it); positions are threaded through the lexer only to reproduce
its error messages.  Character classes are the ASCII fragment of the
Python `str` predicates (the expressions of this language are ASCII). -/

inductive Tok where
  | identTok (s : String) : Tok
  | numTok (v : Value) : Tok
  | strTok (s : String) : Tok
  | boolTok (b : Bool) : Tok
  | nullTok : Tok
  | opTok (s : String) : Tok
  | dotTok : Tok
  | commaTok : Tok
  | colonTok : Tok
  | parenOpen : Tok
  | parenClose : Tok
  | bracketOpen : Tok
  | bracketClose : Tok
  | braceOpen : Tok
  | braceClose : Tok
  | eofTok : Tok
deriving Repr

/-- The left-brace character. -/
def lbraceC : Char := Char.ofNat 123

/-- The right-brace character. -/
def rbraceC : Char := Char.ofNat 125

/-- The single-quote character. -/
def squoteC : Char := Char.ofNat 39

/-- The double-quote character. -/
def dquoteC : Char := Char.ofNat 34

/-- The backslash character. -/
def bslashC : Char := Char.ofNat 92

/-- Python `str.isspace` (ASCII fragment). -/
def isPySpace (c : Char) : Bool :=
  c = ' ' || c = Char.ofNat 9 || c = Char.ofNat 10 || c = Char.ofNat 13
    || c = Char.ofNat 11 || c = Char.ofNat 12

/-- Python `str.strip()` (ASCII whitespace). -/
def pyStrip (s : String) : String :=
  ⟨((s.data.dropWhile isPySpace).reverse.dropWhile isPySpace).reverse⟩

/-- Python `s.startswith(pre)`. -/
def strStartsWith (s pre : String) : Bool :=
  pre.data.isPrefixOf s.data

/-- Python `s.endswith(suf)`. -/
def strEndsWith (s suf : String) : Bool :=
  suf.data.isSuffixOf s.data

/-- Python `s.split(sep)` for a one-character separator. -/
def splitChar (sep : Char) (s : String) : List String :=
  let rec go : List Char → List Char → List String
    | [], acc => [⟨acc.reverse⟩]
    | c :: rest, acc =>
      if c = sep then ⟨acc.reverse⟩ :: go rest []
      else go rest (c :: acc)
  go s.data []

/-- `ExpressionLexer.OPERATORS`. -/
def lexOperators : List String :=
  ["+", "-", "*", "/", "%", "==", "!=", "===", "!==",
   ">", ">=", "<", "<=", "&&", "||", "!"]

/-- `_is_operator_start`: membership in `"+-*/%=!<>&|"`. -/
def isOperatorStart (c : Char) : Bool :=
  c = '+' || c = '-' || c = '*' || c = '/' || c = '%' || c = '='
    || c = '!' || c = '<' || c = '>' || c = '&' || c = '|'

/-- `_read_string`, after the opening quote: consume until the closing
quote, translating backslash escapes `n`/`t`/`r` and passing any other
escaped character through; reaching the end of input is an
unterminated-string lex error naming the opening quote's position. -/
def readStrAux (quote : Char) (start : Nat) :
    List Char → Nat → String → Except Err (String × List Char × Nat)
  | [], _, _ =>
    .error (.lexError ("Unterminated string starting at position " ++ toString start))
  | c :: rest, pos, acc =>
    if c = quote then .ok (acc, rest, pos + 1)
    else if c = bslashC then
      match rest with
      | [] =>
        -- escaped position runs past the input: the loop ends unterminated
        .error (.lexError ("Unterminated string starting at position " ++ toString start))
      | e :: rest2 =>
        let piece :=
          if e = 'n' then "\n"
          else if e = 't' then "\t"
          else if e = 'r' then "\r"
          else String.singleton e
        readStrAux quote start rest2 (pos + 2) (acc ++ piece)
    else readStrAux quote start rest (pos + 1) (acc ++ String.singleton c)

/-- Greedily read decimal digits, returning them with the rest. -/
def readDigits : List Char → Nat → (List Char × List Char × Nat)
  | [], pos => ([], [], pos)
  | c :: rest, pos =>
    if c.isDigit then
      let (ds, r, p) := readDigits rest (pos + 1)
      (c :: ds, r, p)
    else ([], c :: rest, pos)

/-- Decimal digit list to a natural number. -/
def digitsToNat (ds : List Char) : Nat :=
  ds.foldl (fun acc c => acc * 10 + (c.toNat - 48)) 0

/-- `_read_number`: optional leading minus, integer digits, optional
fraction, optional exponent; the token is a float exactly when the
lexeme contains `.` or `e`/`E` (the numeric value is exact — host float
rounding is not modelled, and a malformed trailing exponent is read as
exponent zero where the host `float()` call would crash). -/
def readNumber (cs : List Char) (pos : Nat) : (Value × List Char × Nat) :=
  let (neg, cs1, p1) :=
    match cs with
    | c :: rest => if c = '-' then (true, rest, pos + 1) else (false, cs, pos)
    | [] => (false, cs, pos)
  let (intDs, cs2, p2) := readDigits cs1 p1
  let (sawDot, fracDs, cs3, p3) :=
    match cs2 with
    | c :: rest =>
      if c = '.' then
        let (ds, r, p) := readDigits rest (p2 + 1)
        (true, ds, r, p)
      else (false, [], cs2, p2)
    | [] => (false, ([] : List Char), cs2, p2)
  let (sawExp, expNeg, expDs, cs4, p4) :=
    match cs3 with
    | c :: rest =>
      if c = 'e' || c = 'E' then
        match rest with
        | d :: rest2 =>
          if d = '+' || d = '-' then
            let (ds, r, p) := readDigits rest2 (p3 + 2)
            (true, d == '-', ds, r, p)
          else
            let (ds, r, p) := readDigits rest (p3 + 1)
            (true, false, ds, r, p)
        | [] => (true, false, ([] : List Char), rest, p3 + 1)
      else (false, false, [], cs3, p3)
    | [] => (false, false, ([] : List Char), cs3, p3)
  let mant : ℚ :=
    (digitsToNat intDs : ℚ) + (digitsToNat fracDs : ℚ) / ((10 : ℚ) ^ fracDs.length)
  let expVal : Int :=
    (if expNeg then -1 else 1) * (digitsToNat expDs : Int)
  let mag : ℚ := mant * (10 : ℚ) ^ expVal
  let q : ℚ := if neg then -mag else mag
  let v : Value :=
    if sawDot || sawExp then .vfloat q
    else .vint (if neg then -(digitsToNat intDs : Int) else (digitsToNat intDs : Int))
  (v, cs4, p4)

/-- `ExpressionLexer.KEYWORDS`. -/
def keywordTok (s : String) : Option Tok :=
  if s = "true" then some (.boolTok true)
  else if s = "false" then some (.boolTok false)
  else if s = "null" then some .nullTok
  else if s = "undefined" then some .nullTok
  else none

/-- `_read_identifier`: consume `[A-Za-z0-9_]*`, then map reserved
words to their keyword tokens. -/
def readIdentifier (cs : List Char) (pos : Nat) : (Tok × List Char × Nat) :=
  let rec go : List Char → Nat → (List Char × List Char × Nat)
    | [], p => ([], [], p)
    | c :: rest, p =>
      if c.isAlphanum || c = '_' then
        let (ds, r, p2) := go rest (p + 1)
        (c :: ds, r, p2)
      else ([], c :: rest, p)
  let (ds, r, p) := go cs pos
  let s : String := ⟨ds⟩
  match keywordTok s with
  | some t => (t, r, p)
  | none => (.identTok s, r, p)

/-- `_read_operator`: longest-prefix, two-character operators first
(extended to `===`/`!==` when a further `=` follows `==`/`!=`), then
single characters, else an unknown-operator lex error. -/
def readOperator (cs : List Char) (pos : Nat) :
    Except Err (Tok × List Char × Nat) :=
  match cs with
  | a :: b :: rest =>
    let two : String := ⟨[a, b]⟩
    if lexOperators.contains two then
      if (two = "==" || two = "!=") then
        match rest with
        | c :: rest2 =>
          if c = '=' then .ok (.opTok (two ++ "="), rest2, pos + 3)
          else .ok (.opTok two, c :: rest2, pos + 2)
        | [] => .ok (.opTok two, [], pos + 2)
      else .ok (.opTok two, rest, pos + 2)
    else if lexOperators.contains (String.singleton a) then
      .ok (.opTok (String.singleton a), b :: rest, pos + 1)
    else .error (.lexError ("Unknown operator starting at position " ++ toString pos))
  | [a] =>
    if lexOperators.contains (String.singleton a) then
      .ok (.opTok (String.singleton a), [], pos + 1)
    else .error (.lexError ("Unknown operator starting at position " ++ toString pos))
  | [] => .error (.lexError ("Unknown operator starting at position " ++ toString pos))

/-- `ExpressionLexer.tokenize`, one dispatch step per fuel unit; each
step consumes at least one character, so fuel `length + 1` is enough. -/
def tokenizeAux : Nat → List Char → Nat → Except Err (List Tok)
  | 0, _, _ => .error (.lexError "lexer fuel exhausted")
  | fuel + 1, cs, pos =>
    match cs with
    | [] => .ok [.eofTok]
    | c :: rest =>
      if isPySpace c then tokenizeAux fuel rest (pos + 1)
      else if c = '(' then do
        let ts ← tokenizeAux fuel rest (pos + 1); .ok (.parenOpen :: ts)
      else if c = ')' then do
        let ts ← tokenizeAux fuel rest (pos + 1); .ok (.parenClose :: ts)
      else if c = '[' then do
        let ts ← tokenizeAux fuel rest (pos + 1); .ok (.bracketOpen :: ts)
      else if c = ']' then do
        let ts ← tokenizeAux fuel rest (pos + 1); .ok (.bracketClose :: ts)
      else if c = lbraceC then do
        let ts ← tokenizeAux fuel rest (pos + 1); .ok (.braceOpen :: ts)
      else if c = rbraceC then do
        let ts ← tokenizeAux fuel rest (pos + 1); .ok (.braceClose :: ts)
      else if c = '.' then do
        let ts ← tokenizeAux fuel rest (pos + 1); .ok (.dotTok :: ts)
      else if c = ',' then do
        let ts ← tokenizeAux fuel rest (pos + 1); .ok (.commaTok :: ts)
      else if c = ':' then do
        let ts ← tokenizeAux fuel rest (pos + 1); .ok (.colonTok :: ts)
      else if c = dquoteC || c = squoteC then do
        let (s, r, p) ← readStrAux c pos rest (pos + 1) ""
        let ts ← tokenizeAux fuel r p
        .ok (.strTok s :: ts)
      else if c.isDigit ||
          (c = '-' && (match rest with | d :: _ => d.isDigit | [] => false)) then
        let (v, r, p) := readNumber cs pos
        do let ts ← tokenizeAux fuel r p; .ok (.numTok v :: ts)
      else if c.isAlpha || c = '_' then
        let (t, r, p) := readIdentifier cs pos
        do let ts ← tokenizeAux fuel r p; .ok (t :: ts)
      else if isOperatorStart c then do
        let (t, r, p) ← readOperator cs pos
        let ts ← tokenizeAux fuel r p
        .ok (t :: ts)
      else
        .error (.lexError ("Unexpected character '" ++ String.singleton c
          ++ "' at position " ++ toString pos))

/-- `tokenize(expr)`: the token stream, terminated by EOF. -/
def tokenize (s : String) : Except Err (List Tok) :=
  tokenizeAux (s.length + 1) s.data 0

/-! ## Parser (expression.py, ExpressionParser)

The source keeps a cursor into the token list whose `_advance` clamps
at the final EOF token; the embedding carries the remaining token list,
with the same clamp.  Recursion is fuel-based; fuel is chosen large
enough for any actual parse and the out-of-fuel branch is unreachable
on the inputs the theorems evaluate. -/

inductive AST where
  | lit (v : Value) : AST
  | identE (name : String) : AST
  | member (obj : AST) (prop : AST) (computed : Bool) : AST
  | call (callee : AST) (args : List AST) : AST
  | binary (op : String) (left : AST) (right : AST) : AST
  | unary (op : String) (arg : AST) : AST
  | arrayE (elements : List AST) : AST
  | objectE (props : List (String × AST)) : AST
deriving Repr

/-- `TokenType.value` of a token, for error messages. -/
def Tok.typeName : Tok → String
  | .identTok _ => "identifier"
  | .numTok _ => "number"
  | .strTok _ => "string"
  | .boolTok _ => "boolean"
  | .nullTok => "null"
  | .opTok _ => "operator"
  | .dotTok => "dot"
  | .commaTok => "comma"
  | .colonTok => "colon"
  | .parenOpen => "paren_open"
  | .parenClose => "paren_close"
  | .bracketOpen => "bracket_open"
  | .bracketClose => "bracket_close"
  | .braceOpen => "brace_open"
  | .braceClose => "brace_close"
  | .eofTok => "eof"

/-- Python `str(token.value)` for error messages (float rendering is
best-effort; only the message text depends on it). -/
def Tok.valueStr : Tok → String
  | .identTok s => s
  | .numTok (.vint n) => toString n
  | .numTok (.vfloat q) =>
    if q.den = 1 then toString q.num ++ ".0" else toString q.num ++ "/" ++ toString q.den
  | .numTok _ => ""
  | .strTok s => s
  | .boolTok b => if b then "True" else "False"
  | .nullTok => "None"
  | .opTok s => s
  | .dotTok => "."
  | .commaTok => ","
  | .colonTok => ":"
  | .parenOpen => "("
  | .parenClose => ")"
  | .bracketOpen => "["
  | .bracketClose => "]"
  | .braceOpen => String.singleton lbraceC
  | .braceClose => String.singleton rbraceC
  | .eofTok => "None"

/-- `_current`: the cursor's token (the stream always ends in EOF). -/
def curTok (toks : List Tok) : Tok :=
  toks.headD .eofTok

/-- `_advance`'s cursor move: clamps at the final token. -/
def advTok : List Tok → List Tok
  | [] => []
  | [t] => [t]
  | _ :: rest => rest

/-- `_expect` failure message. -/
def expectedMsg (want : String) (got : Tok) : Err :=
  .parseError ("Expected " ++ want ++ ", got " ++ got.typeName)

/-- `ExpressionParser.PRECEDENCE` (lower binds looser). -/
def precedenceOf (op : String) : Option Nat :=
  if op = "||" then some 1
  else if op = "&&" then some 2
  else if op = "==" || op = "!=" || op = "===" || op = "!==" then some 3
  else if op = "<" || op = ">" || op = "<=" || op = ">=" then some 4
  else if op = "+" || op = "-" then some 5
  else if op = "*" || op = "/" || op = "%" then some 6
  else none

mutual

/-- `_parse_expression`: precedence climbing above a unary operand. -/
def parseExpression : Nat → Nat → List Tok → Except Err (AST × List Tok)
  | 0, _, _ => .error (.parseError "parser fuel exhausted")
  | fuel + 1, minPrec, toks => do
    let (left, toks1) ← parseUnary fuel toks
    parseBinLoop fuel minPrec left toks1

/-- The operator loop of `_parse_expression`: while the current token
is an operator whose precedence is at least the minimum, consume it and
parse the right side one level tighter (left associativity). -/
def parseBinLoop : Nat → Nat → AST → List Tok → Except Err (AST × List Tok)
  | 0, _, _, _ => .error (.parseError "parser fuel exhausted")
  | fuel + 1, minPrec, left, toks =>
    match curTok toks with
    | .opTok v =>
      match precedenceOf v with
      | some p =>
        if p < minPrec then .ok (left, toks)
        else do
          let (right, toks1) ← parseExpression fuel (p + 1) (advTok toks)
          parseBinLoop fuel minPrec (.binary v left right) toks1
      | none => .ok (left, toks)
    | _ => .ok (left, toks)

/-- `_parse_unary`: right-associative `!`, `-`, `+`. -/
def parseUnary : Nat → List Tok → Except Err (AST × List Tok)
  | 0, _ => .error (.parseError "parser fuel exhausted")
  | fuel + 1, toks =>
    match curTok toks with
    | .opTok v =>
      if v = "!" || v = "-" || v = "+" then do
        let (arg, toks1) ← parseUnary fuel (advTok toks)
        .ok (.unary v arg, toks1)
      else parseCallMember fuel toks
    | _ => parseCallMember fuel toks

/-- `_parse_call_member`: a primary followed by its postfix chain. -/
def parseCallMember : Nat → List Tok → Except Err (AST × List Tok)
  | 0, _ => .error (.parseError "parser fuel exhausted")
  | fuel + 1, toks => do
    let (node, toks1) ← parsePrimary fuel toks
    parsePostfixLoop fuel node toks1

/-- The postfix loop of `_parse_call_member`: `.ident`, `[expr]`, and
`(args)` steps, mixable. -/
def parsePostfixLoop : Nat → AST → List Tok → Except Err (AST × List Tok)
  | 0, _, _ => .error (.parseError "parser fuel exhausted")
  | fuel + 1, node, toks =>
    match curTok toks with
    | .dotTok =>
      let toks1 := advTok toks
      match curTok toks1 with
      | .identTok name =>
        parsePostfixLoop fuel (.member node (.identE name) false) (advTok toks1)
      | t => .error (expectedMsg "identifier" t)
    | .bracketOpen => do
      let (propExpr, toks1) ← parseExpression fuel 0 (advTok toks)
      match curTok toks1 with
      | .bracketClose =>
        parsePostfixLoop fuel (.member node propExpr true) (advTok toks1)
      | t => .error (expectedMsg "bracket_close" t)
    | .parenOpen => do
      let (args, toks1) ← parseArguments fuel (advTok toks)
      match curTok toks1 with
      | .parenClose =>
        parsePostfixLoop fuel (.call node args) (advTok toks1)
      | t => .error (expectedMsg "paren_close" t)
    | _ => .ok (node, toks)

/-- `_parse_arguments`: empty, or comma-separated expressions. -/
def parseArguments : Nat → List Tok → Except Err (List AST × List Tok)
  | 0, _ => .error (.parseError "parser fuel exhausted")
  | fuel + 1, toks =>
    match curTok toks with
    | .parenClose => .ok ([], toks)
    | _ => do
      let (first, toks1) ← parseExpression fuel 0 toks
      parseArgsLoop fuel [first] toks1

/-- The comma loop of `_parse_arguments`. -/
def parseArgsLoop : Nat → List AST → List Tok → Except Err (List AST × List Tok)
  | 0, _, _ => .error (.parseError "parser fuel exhausted")
  | fuel + 1, acc, toks =>
    match curTok toks with
    | .commaTok => do
      let (next, toks1) ← parseExpression fuel 0 (advTok toks)
      parseArgsLoop fuel (acc ++ [next]) toks1
    | _ => .ok (acc, toks)

/-- `_parse_primary`: literals, identifiers, parenthesized expressions,
array and object literals. -/
def parsePrimary : Nat → List Tok → Except Err (AST × List Tok)
  | 0, _ => .error (.parseError "parser fuel exhausted")
  | fuel + 1, toks =>
    match curTok toks with
    | .numTok v => .ok (.lit v, advTok toks)
    | .strTok s => .ok (.lit (.vstr s), advTok toks)
    | .boolTok b => .ok (.lit (.vbool b), advTok toks)
    | .nullTok => .ok (.lit .vnull, advTok toks)
    | .identTok s => .ok (.identE s, advTok toks)
    | .parenOpen => do
      let (expr, toks1) ← parseExpression fuel 0 (advTok toks)
      match curTok toks1 with
      | .parenClose => .ok (expr, advTok toks1)
      | t => .error (expectedMsg "paren_close" t)
    | .bracketOpen => parseArray fuel toks
    | .braceOpen => parseObject fuel toks
    | t =>
      .error (.parseError ("Unexpected token " ++ t.typeName ++ ": " ++ t.valueStr))

/-- `_parse_array`: bracketed elements with trailing comma allowed. -/
def parseArray : Nat → List Tok → Except Err (AST × List Tok)
  | 0, _ => .error (.parseError "parser fuel exhausted")
  | fuel + 1, toks =>
    match curTok toks with
    | .bracketOpen =>
      let toks1 := advTok toks
      match curTok toks1 with
      | .bracketClose => .ok (.arrayE [], advTok toks1)
      | _ => do
        let (first, toks2) ← parseExpression fuel 0 toks1
        let (elems, toks3) ← parseArrayLoop fuel [first] toks2
        match curTok toks3 with
        | .bracketClose => .ok (.arrayE elems, advTok toks3)
        | t => .error (expectedMsg "bracket_close" t)
    | t => .error (expectedMsg "bracket_open" t)

/-- The comma loop of `_parse_array` (a close bracket after a comma is
a trailing comma). -/
def parseArrayLoop : Nat → List AST → List Tok → Except Err (List AST × List Tok)
  | 0, _, _ => .error (.parseError "parser fuel exhausted")
  | fuel + 1, acc, toks =>
    match curTok toks with
    | .commaTok =>
      let toks1 := advTok toks
      match curTok toks1 with
      | .bracketClose => .ok (acc, toks1)
      | _ => do
        let (next, toks2) ← parseExpression fuel 0 toks1
        parseArrayLoop fuel (acc ++ [next]) toks2
    | _ => .ok (acc, toks)

/-- `_parse_object`: braced `key: value` pairs with trailing comma
allowed. -/
def parseObject : Nat → List Tok → Except Err (AST × List Tok)
  | 0, _ => .error (.parseError "parser fuel exhausted")
  | fuel + 1, toks =>
    match curTok toks with
    | .braceOpen =>
      let toks1 := advTok toks
      match curTok toks1 with
      | .braceClose => .ok (.objectE [], advTok toks1)
      | _ => do
        let (first, toks2) ← parseProperty fuel toks1
        let (props, toks3) ← parseObjectLoop fuel [first] toks2
        match curTok toks3 with
        | .braceClose => .ok (.objectE props, advTok toks3)
        | t => .error (expectedMsg "brace_close" t)
    | t => .error (expectedMsg "brace_open" t)

/-- The comma loop of `_parse_object`. -/
def parseObjectLoop : Nat → List (String × AST) → List Tok →
    Except Err (List (String × AST) × List Tok)
  | 0, _, _ => .error (.parseError "parser fuel exhausted")
  | fuel + 1, acc, toks =>
    match curTok toks with
    | .commaTok =>
      let toks1 := advTok toks
      match curTok toks1 with
      | .braceClose => .ok (acc, toks1)
      | _ => do
        let (next, toks2) ← parseProperty fuel toks1
        parseObjectLoop fuel (acc ++ [next]) toks2
    | _ => .ok (acc, toks)

/-- `_parse_property`: a bare-identifier or string key, a colon, and a
value expression. -/
def parseProperty : Nat → List Tok → Except Err ((String × AST) × List Tok)
  | 0, _ => .error (.parseError "parser fuel exhausted")
  | fuel + 1, toks => do
    let (key, toks1) ←
      match curTok toks with
      | .identTok s => pure (s, advTok toks)
      | .strTok s => pure (s, advTok toks)
      | t => .error (.parseError ("Expected property key, got " ++ t.typeName))
    match curTok toks1 with
    | .colonTok => parseExpression fuel 0 (advTok toks1)
        >>= fun (v, toks2) => .ok ((key, v), toks2)
    | t => .error (expectedMsg "colon" t)

end

/-- `ExpressionParser.parse`: one full expression, then nothing but
EOF. -/
def parseToks (toks : List Tok) : Except Err AST := do
  let (node, toks1) ← parseExpression ((toks.length + 1) * 10) 0 toks
  match curTok toks1 with
  | .eofTok => .ok node
  | t => .error (.parseError ("Unexpected token " ++ t.valueStr ++ " after expression"))

/-! ## Evaluator (expression.py, ExpressionEvaluator)

Dynamic Python operators are embedded over `Value`.  Host `TypeError`
messages are approximated (only their being raised matters); sequence
`%`-formatting of strings and list-vs-list ordering are outside the
model and render as `TypeError` (no embedded code path or claim
reaches them). -/

/-- Python sequence repetition count: a non-positive or non-int count
yields the empty sequence / a `TypeError` respectively at the call
sites below. -/
def repCount (n : Int) : Nat :=
  if n ≤ 0 then 0 else n.toNat

/-- Python `+` on embedded values. -/
def pyAdd (a b : Value) : Except Err Value :=
  match a, b with
  | .vstr x, .vstr y => .ok (.vstr (x ++ y))
  | .vlist x, .vlist y => .ok (.vlist (x ++ y))
  | _, _ =>
    match a.asIntNum, b.asIntNum with
    | some x, some y => .ok (.vint (x + y))
    | _, _ =>
      match a.asNum, b.asNum with
      | some x, some y => .ok (.vfloat (x + y))
      | _, _ => .error (.typeError "unsupported operand type(s) for +")

/-- Python `-` on embedded values. -/
def pySub (a b : Value) : Except Err Value :=
  match a.asIntNum, b.asIntNum with
  | some x, some y => .ok (.vint (x - y))
  | _, _ =>
    match a.asNum, b.asNum with
    | some x, some y => .ok (.vfloat (x - y))
    | _, _ => .error (.typeError "unsupported operand type(s) for -")

/-- Python `*` on embedded values (including string/list repetition by
an int-like count). -/
def pyMul (a b : Value) : Except Err Value :=
  match a, b with
  | .vstr x, _ =>
    match b.asIntNum with
    | some n => .ok (.vstr (String.join (List.replicate (repCount n) x)))
    | none => .error (.typeError "unsupported operand type(s) for *")
  | _, .vstr y =>
    match a.asIntNum with
    | some n => .ok (.vstr (String.join (List.replicate (repCount n) y)))
    | none => .error (.typeError "unsupported operand type(s) for *")
  | .vlist x, _ =>
    match b.asIntNum with
    | some n => .ok (.vlist (List.flatten (List.replicate (repCount n) x)))
    | none => .error (.typeError "unsupported operand type(s) for *")
  | _, .vlist y =>
    match a.asIntNum with
    | some n => .ok (.vlist (List.flatten (List.replicate (repCount n) y)))
    | none => .error (.typeError "unsupported operand type(s) for *")
  | _, _ =>
    match a.asIntNum, b.asIntNum with
    | some x, some y => .ok (.vint (x * y))
    | _, _ =>
      match a.asNum, b.asNum with
      | some x, some y => .ok (.vfloat (x * y))
      | _, _ => .error (.typeError "unsupported operand type(s) for *")

/-- Python `/` on embedded values (true division, always float); the
divisor-zero case is rejected by the caller before this runs. -/
def pyDiv (a b : Value) : Except Err Value :=
  match a.asNum, b.asNum with
  | some x, some y => .ok (.vfloat (x / y))
  | _, _ => .error (.typeError "unsupported operand type(s) for /")

/-- Python `%` on embedded values: floor-division remainder (the sign
follows the divisor); int-like operands give an int. -/
def pyMod (a b : Value) : Except Err Value :=
  match a.asIntNum, b.asIntNum with
  | some x, some y => .ok (.vint (Int.fmod x y))
  | _, _ =>
    match a.asNum, b.asNum with
    | some x, some y => .ok (.vfloat (x - y * (⌊x / y⌋ : Int)))
    | _, _ => .error (.typeError "unsupported operand type(s) for %")

/-- Python ordering comparisons: numeric pairs by value, strings
lexicographically by code point, anything else a `TypeError`. -/
def pyCompare (op : String) (a b : Value) : Except Err Value :=
  match a, b with
  | .vstr x, .vstr y =>
    if op = ">" then .ok (.vbool (decide (y < x)))
    else if op = ">=" then .ok (.vbool (decide (y < x || y = x)))
    else if op = "<" then .ok (.vbool (decide (x < y)))
    else .ok (.vbool (decide (x < y || x = y)))
  | _, _ =>
    match a.asNum, b.asNum with
    | some x, some y =>
      if op = ">" then .ok (.vbool (decide (x > y)))
      else if op = ">=" then .ok (.vbool (decide (x ≥ y)))
      else if op = "<" then .ok (.vbool (decide (x < y)))
      else .ok (.vbool (decide (x ≤ y)))
    | _, _ => .error (.typeError ("not supported between operands for " ++ op))

/-- The operator dispatch of `_evaluate_binary`, applied to the two
already-evaluated operands (the `&&`/`||` short-circuit happens before
the right operand is evaluated and never reaches this).  `/` and `%`
test the divisor against zero with Python `==` before touching the
operands' types. -/
def applyBinaryOp (op : String) (left right : Value) : Except Err Value :=
  if op = "+" then pyAdd left right
  else if op = "-" then pySub left right
  else if op = "*" then pyMul left right
  else if op = "/" then
    if right.pyEq (.vint 0) then .error (.evaluationError "Division by zero")
    else pyDiv left right
  else if op = "%" then
    if right.pyEq (.vint 0) then .error (.evaluationError "Modulo by zero")
    else pyMod left right
  else if op = "==" || op = "===" then .ok (.vbool (left.pyEq right))
  else if op = "!=" || op = "!==" then .ok (.vbool (! left.pyEq right))
  else if op = ">" || op = ">=" || op = "<" || op = "<=" then
    pyCompare op left right
  else
    .error (.evaluationError ("Operator \"" ++ op ++ "\" is not allowed."))

/-- `_evaluate_unary` after the operand is evaluated. -/
def applyUnaryOp (op : String) (argument : Value) : Except Err Value :=
  if op = "!" then .ok (.vbool (! argument.truthy))
  else if op = "-" then
    match argument.asIntNum with
    | some n => .ok (.vint (-n))
    | none =>
      match argument with
      | .vfloat q => .ok (.vfloat (-q))
      | _ => .error (.typeError "bad operand type for unary -")
  else if op = "+" then
    match argument.asIntNum with
    | some n => .ok (.vint n)
    | none =>
      match argument with
      | .vfloat q => .ok (.vfloat q)
      | _ => .error (.typeError "bad operand type for unary +")
  else
    .error (.evaluationError ("Unary operator \"" ++ op ++ "\" is not supported."))

/-- The container dispatch of `_evaluate_member`, after the null-base
shortcut and with the property already a value: the private-name guard
first, then dict lookup (absent or stored-null gives `""`), then
in-range int indexing of lists (Python `bool` is int-like), then the
host-attribute branch, which no embedded value supports, giving `""`. -/
def memberAccess (obj prop : Value) : Except Err Value :=
  match prop with
  | .vstr p =>
    if strStartsWith p "__" || strStartsWith p "_" then
      .error (.evaluationError
        ("Access to private attribute '" ++ p ++ "' is not allowed"))
    else
      match obj with
      | .vmap m =>
        match dictGet m p with
        | some v => match v with | .vnull => .ok (.vstr "") | _ => .ok v
        | none => .ok (.vstr "")
      | .vlist _ => .ok (.vstr "")
      | _ => .ok (.vstr "")
  | _ =>
    match obj with
    | .vmap _ => .ok (.vstr "")
    | .vlist xs =>
      match prop.asIntNum with
      | some i =>
        if h : 0 ≤ i ∧ i.toNat < xs.length then .ok (xs.get ⟨i.toNat, h.2⟩)
        else .ok (.vstr "")
      | none => .ok (.vstr "")
    | _ => .ok (.vstr "")

/-- A filter function: the evaluated subject plus the remaining
positional arguments; being host code it may raise. -/
def FilterFn : Type := Value → List Value → Except Err Value

/-- The evaluator's view of the filter registry: the engine's instance
registry together with the live global table. -/
structure Filters where
  inst : FilterRegistry FilterFn
  globalTable : List (String × FilterFn)

/-- `self.filter_registry.get(name)` as seen from the evaluator. -/
def Filters.get (f : Filters) (name : String) : Option FilterFn :=
  f.inst.get f.globalTable name

mutual

/-- `_evaluate_node`: structural evaluation of the expression AST. -/
def evalNode (flt : Filters) (scope : Scope) : AST → Except Err Value
  | .lit v => .ok v
  | .identE name => .ok (scope.get name)
  | .member o p c => do
    let obj ← evalNode flt scope o
    match obj with
    | .vnull => .ok (.vstr "")
    | _ => do
      let prop ←
        if c then evalNode flt scope p
        else
          match p with
          | .identE n => .ok (Value.vstr n)
          | _ => .error (.evaluationError "Non-computed member access requires identifier")
      memberAccess obj prop
  | .call callee args =>
    match callee with
    | .identE fname =>
      match flt.get fname with
      | none => .error (.evaluationError ("Filter \"" ++ fname ++ "\" is not registered."))
      | some f => do
        let vs ← evalNodeList flt scope args
        match vs with
        | [] => .error (.evaluationError
            ("Filter \"" ++ fname ++ "\" requires at least one argument."))
        | x :: rest => f x rest
    | _ => .error (.evaluationError "Only calls to registered filters are allowed.")
  | .binary op l r => do
    let lv ← evalNode flt scope l
    if op = "&&" then
      if lv.truthy then evalNode flt scope r else .ok lv
    else if op = "||" then
      if lv.truthy then .ok lv else evalNode flt scope r
    else do
      let rv ← evalNode flt scope r
      applyBinaryOp op lv rv
  | .unary op a => do
    let av ← evalNode flt scope a
    applyUnaryOp op av
  | .arrayE elems => do
    let vs ← evalNodeList flt scope elems
    .ok (.vlist vs)
  | .objectE props => do
    let pairs ← evalPairs flt scope props
    .ok (.vmap (pairs.foldl (fun acc kv => dictInsert acc kv.1 kv.2) []))

/-- Eager left-to-right evaluation of an expression list. -/
def evalNodeList (flt : Filters) (scope : Scope) : List AST → Except Err (List Value)
  | [] => .ok []
  | a :: rest => do
    let v ← evalNode flt scope a
    let vs ← evalNodeList flt scope rest
    .ok (v :: vs)

/-- Eager left-to-right evaluation of object-literal pairs. -/
def evalPairs (flt : Filters) (scope : Scope) :
    List (String × AST) → Except Err (List (String × Value))
  | [] => .ok []
  | (k, a) :: rest => do
    let v ← evalNode flt scope a
    let vs ← evalPairs flt scope rest
    .ok ((k, v) :: vs)

end

/-- `ExpressionEvaluator.evaluate`: strip, empty gives `""`, then
lex/parse/evaluate with `LexerError` and `ParseError` re-raised as an
`EvaluationError` carrying the (stripped) expression text. -/
def evaluate (flt : Filters) (scope : Scope) (expression : String) :
    Except Err Value :=
  let e := pyStrip expression
  if e = "" then .ok (.vstr "")
  else
    let r : Except Err Value := do
      let toks ← tokenize e
      let ast ← parseToks toks
      evalNode flt scope ast
    match r with
    | .error (.lexError m) =>
      .error (.evaluationError
        ("Failed to parse expression \"" ++ e ++ "\": " ++ m))
    | .error (.parseError m) =>
      .error (.evaluationError
        ("Failed to parse expression \"" ++ e ++ "\": " ++ m))
    | other => other

/-! ## Node model (constants.py, tag_plugin.py)

`constants.py` itself is not in the source snapshot; its `NODE_TYPES`
values below follow the mdast/MDX convention its users and the test
suite exhibit (`"mdxJsxAttribute"`, `"root"`, ...).  Only their
distinctness is load-bearing.  A node is the discriminated dict of the
source: `children` is optional to mirror key presence; `value` defaults
to `""` as every read is `node.get("value", "")`; `name` is `None`-able;
the `data.estree` payload of upstream-parsed function bodies is outside
the model (such nodes carry no `data` key here, so `data.get("estree")`
is always empty). -/

/-- `NODE_TYPES["TEXT"]`. -/
def ntText : String := "text"

/-- `NODE_TYPES["PARAGRAPH"]`. -/
def ntParagraph : String := "paragraph"

/-- `NODE_TYPES["LIST"]`. -/
def ntList : String := "list"

/-- `NODE_TYPES["LIST_ITEM"]`. -/
def ntListItem : String := "listItem"

/-- `NODE_TYPES["MDX_TEXT_EXPRESSION"]`. -/
def ntMdxTextExpression : String := "mdxTextExpression"

/-- `NODE_TYPES["MDX_FLOW_EXPRESSION"]`. -/
def ntMdxFlowExpression : String := "mdxFlowExpression"

/-- `NODE_TYPES["MDX_JSX_FLOW_ELEMENT"]`. -/
def ntMdxJsxFlowElement : String := "mdxJsxFlowElement"

/-- `NODE_TYPES["MDX_JSX_TEXT_ELEMENT"]`. -/
def ntMdxJsxTextElement : String := "mdxJsxTextElement"

/-- The wire value of an `mdxJsxAttribute`: a plain string, or an
`mdxJsxAttributeValueExpression` carrying expression source. -/
inductive AttrVal where
  | str (s : String) : AttrVal
  | expr (e : String) : AttrVal
deriving Repr

/-- A JSX attribute: an `mdxJsxAttribute` (whose `None` value means a
boolean-true flag), or an `mdxJsxExpressionAttribute` (spread form,
always rejected by the transformer). -/
inductive Attr where
  | jsxAttr (name : String) (value : Option AttrVal) : Attr
  | exprAttr (value : String) : Attr
deriving Repr

inductive Node where
  | mk (ntype : String) (value : String) (name : Option String)
       (attributes : List Attr) (children : Option (List Node))
       (ordered : Bool) (spread : Bool) : Node
deriving Repr

/-- The `type` discriminator. -/
def Node.ntype : Node → String
  | .mk t _ _ _ _ _ _ => t

/-- `node.get("value", "")`. -/
def Node.value : Node → String
  | .mk _ v _ _ _ _ _ => v

/-- `node.get("name")`. -/
def Node.name : Node → Option String
  | .mk _ _ n _ _ _ _ => n

/-- `node.get("attributes", [])`. -/
def Node.attributes : Node → List Attr
  | .mk _ _ _ a _ _ _ => a

/-- The `children` entry, `none` when the key is absent. -/
def Node.childrenOpt : Node → Option (List Node)
  | .mk _ _ _ _ c _ _ => c

/-- `node.get("children", [])`. -/
def Node.childrenD (n : Node) : List Node :=
  n.childrenOpt.getD []

/-- `dict(node)` with `children` replaced. -/
def Node.withChildren : Node → List Node → Node
  | .mk t v nm a _ o s, cs => .mk t v nm a (some cs) o s

/-- A text leaf. -/
def textNode (v : String) : Node :=
  .mk ntText v none [] none false false

/-- An inline expression node. -/
def exprNode (v : String) : Node :=
  .mk ntMdxTextExpression v none [] none false false

/-- A JSX flow element. -/
def elemNode (name : String) (attrs : List Attr) (children : List Node) : Node :=
  .mk ntMdxJsxFlowElement "" (some name) attrs (some children) false false

/-- The list container ForEach aggregates into:
`{"type": "list", "ordered": False, "spread": False, "children": items}`. -/
def listNode (items : List Node) : Node :=
  .mk ntList "" none [] (some items) false false

/-- `is_mdx_jsx_element` (tag_plugin.py). -/
def isMdxJsxElement (n : Node) : Bool :=
  n.ntype = ntMdxJsxFlowElement || n.ntype = ntMdxJsxTextElement

/-- `is_parent_node` (tag_plugin.py): the `children` key holds a list. -/
def isParentNode (n : Node) : Bool :=
  n.childrenOpt.isSome

/-- First index of `pat` inside `s`, Python `str.find` (when found). -/
def findSub : List Char → List Char → Option Nat
  | [], pat => if pat.isEmpty then some 0 else none
  | c :: rest, pat =>
    if pat.isPrefixOf (c :: rest) then some 0
    else (findSub rest pat).map (· + 1)

/-- Python `pat in s`. -/
def strContains (s pat : String) : Bool :=
  (findSub s.data pat.data).isSome

/-- Python `s.strip("{}")`: drop brace characters from both ends. -/
def stripBraces (s : String) : String :=
  let isBrace : Char → Bool := fun c => c = lbraceC || c = rbraceC
  ⟨((s.data.dropWhile isBrace).reverse.dropWhile isBrace).reverse⟩

/-- `has_function_body` (tag_plugin.py): an MDX expression node whose
source contains an arrow. -/
def hasFunctionBody (n : Node) : Bool :=
  (n.ntype = ntMdxTextExpression || n.ntype = ntMdxFlowExpression)
    && strContains n.value "=>"

/-- `get_function_body` (tag_plugin.py): split at the first arrow, read
the parameter names (parenthesized or bare, comma-separated, stripped,
empties dropped), and use the node's explicit children as the body when
non-empty. -/
def getFunctionBody (n : Node) : List String × List Node :=
  let value := n.value
  match findSub value.data "=>".data with
  | none => ([], [])
  | some arrowPos =>
    let paramsPart := pyStrip (⟨value.data.take arrowPos⟩ : String)
    let paramsStr :=
      if strStartsWith paramsPart "(" && strEndsWith paramsPart ")" then
        (⟨(paramsPart.data.drop 1).dropLast⟩ : String)
      else paramsPart
    let argumentNames :=
      if paramsStr = "" then []
      else ((splitChar ',' paramsStr).map pyStrip).filter (· ≠ "")
    let children := n.childrenD
    if children.isEmpty then (argumentNames, [])
    else (argumentNames, children)

/-- `_extract_body_from_expression` (for_each.py): the source after the
arrow; a JSX/braced body would consult `data.estree`, which the node
model does not carry, so such bodies fall through to the same fallback
the source uses when `estree` is empty: a single expression node with
surrounding braces stripped. -/
def extractBodyFromExpression (n : Node) : List Node :=
  let value := n.value
  match findSub value.data "=>".data with
  | none => []
  | some arrowPos =>
    let bodyStr := pyStrip (⟨value.data.drop (arrowPos + 2)⟩ : String)
    if bodyStr ≠ "" then [exprNode (stripBraces bodyStr)]
    else []

/-! ## Value stringification (utils.py) -/

/-- Decimal digits of the fractional part of `q` (which must satisfy
`0 ≤ q < 1`), up to the given budget, stopping at an exact expansion. -/
def fracDigits : Nat → ℚ → List Char
  | 0, _ => []
  | budget + 1, f =>
    if f = 0 then []
    else
      let f10 := f * 10
      let d : Int := ⌊f10⌋
      Char.ofNat (48 + d.toNat) :: fracDigits budget (f10 - d)

/-- Python `str(float)` for the exact rationals standing in for floats:
the exact decimal expansion when it terminates within 32 digits (all
floats arising here do), `"x.0"` for integral values. -/
def floatRepr (q : ℚ) : String :=
  let sign := if q < 0 then "-" else ""
  let a := |q|
  let ip : Nat := (⌊a⌋).toNat
  let ds := fracDigits 32 (a - ⌊a⌋)
  if ds.isEmpty then sign ++ toString ip ++ ".0"
  else sign ++ toString ip ++ "." ++ (⟨ds⟩ : String)

/-- JSON string escaping (`json.dumps` fragment: quote, backslash and
the common control characters; other characters pass through). -/
def jsonEscape (s : String) : String :=
  s.data.foldl
    (fun acc c =>
      if c = dquoteC then acc ++ String.singleton bslashC ++ String.singleton dquoteC
      else if c = bslashC then acc ++ String.singleton bslashC ++ String.singleton bslashC
      else if c = Char.ofNat 10 then acc ++ String.singleton bslashC ++ "n"
      else if c = Char.ofNat 9 then acc ++ String.singleton bslashC ++ "t"
      else if c = Char.ofNat 13 then acc ++ String.singleton bslashC ++ "r"
      else acc ++ String.singleton c)
    ""

mutual

/-- `json.dumps` over embedded values (default separators). -/
def jsonDumps : Value → String
  | .vnull => "null"
  | .vbool b => if b then "true" else "false"
  | .vint n => toString n
  | .vfloat q => floatRepr q
  | .vstr s => String.singleton dquoteC ++ jsonEscape s ++ String.singleton dquoteC
  | .vlist xs => "[" ++ jsonDumpsList xs ++ "]"
  | .vmap m =>
    String.singleton lbraceC ++ jsonDumpsPairs m ++ String.singleton rbraceC

/-- Comma-joined list elements. -/
def jsonDumpsList : List Value → String
  | [] => ""
  | [x] => jsonDumps x
  | x :: rest => jsonDumps x ++ ", " ++ jsonDumpsList rest

/-- Comma-joined `"key": value` pairs. -/
def jsonDumpsPairs : List (String × Value) → String
  | [] => ""
  | [(k, v)] =>
    String.singleton dquoteC ++ jsonEscape k ++ String.singleton dquoteC
      ++ ": " ++ jsonDumps v
  | (k, v) :: rest =>
    String.singleton dquoteC ++ jsonEscape k ++ String.singleton dquoteC
      ++ ": " ++ jsonDumps v ++ ", " ++ jsonDumpsPairs rest

end

/-- `stringify_value` (utils.py): null to `""`, booleans to
`true`/`false`, strings unchanged, numbers to their decimal form,
containers to JSON. -/
def stringifyValue : Value → String
  | .vnull => ""
  | .vbool b => if b then "true" else "false"
  | .vstr s => s
  | .vint n => toString n
  | .vfloat q => floatRepr q
  | .vlist xs => jsonDumps (.vlist xs)
  | .vmap m => jsonDumps (.vmap m)

/-! ## Markdown re-serialization (tag_plugin.py, to_markdown)

Used only by the Raw plugin.  Fuel-based; depth never exceeds the tree
depth, and the zero-fuel branch contributes nothing. -/

/-- One attribute's rendering inside `to_markdown`'s element branch
(a spread attribute has no `name` key, so its name renders empty). -/
def attrMarkdown : Attr → String
  | .jsxAttr name none => name
  | .jsxAttr name (some (.str s)) =>
    name ++ "=" ++ String.singleton dquoteC ++ s ++ String.singleton dquoteC
  | .jsxAttr name (some (.expr e)) =>
    name ++ "=" ++ String.singleton lbraceC ++ e ++ String.singleton rbraceC
  | .exprAttr v =>
    "=" ++ String.singleton dquoteC ++ v ++ String.singleton dquoteC

mutual

/-- `to_markdown` over a node list. -/
def toMarkdownList : Nat → List Node → String
  | 0, _ => ""
  | _fuel + 1, [] => ""
  | fuel + 1, n :: rest => toMarkdownOne fuel n ++ toMarkdownList fuel rest

/-- One node's contribution to `to_markdown`, following the source's
branch order. -/
def toMarkdownOne : Nat → Node → String
  | 0, _ => ""
  | fuel + 1, n =>
    if n.ntype = ntText then n.value
    else if n.ntype = ntParagraph then toMarkdownList fuel n.childrenD
    else if n.ntype = ntMdxTextExpression || n.ntype = ntMdxFlowExpression then
      String.singleton lbraceC ++ n.value ++ String.singleton rbraceC
    else if n.ntype = ntMdxJsxFlowElement || n.ntype = ntMdxJsxTextElement then
      let tagName := n.name.getD ""
      let parts := n.attributes.map attrMarkdown
      let attrsJoined := String.intercalate " " parts
      let attrsStr := if attrsJoined = "" then "" else " " ++ attrsJoined
      if n.childrenD.isEmpty then
        "<" ++ tagName ++ attrsStr ++ " />"
      else
        "<" ++ tagName ++ attrsStr ++ ">" ++ toMarkdownList fuel n.childrenD
          ++ "</" ++ tagName ++ ">"
    else if n.ntype = ntList then
      toMarkdownItems fuel n.childrenD
    else if n.ntype = ntListItem then
      toMarkdownList fuel n.childrenD
    else if isParentNode n then
      toMarkdownList fuel n.childrenD
    else ""

/-- The list branch of `to_markdown`: each item rendered as a `- `
line fragment (the source joins with the empty string). -/
def toMarkdownItems : Nat → List Node → String
  | 0, _ => ""
  | _fuel + 1, [] => ""
  | fuel + 1, item :: rest =>
    "- " ++ toMarkdownList fuel item.childrenD ++ toMarkdownItems fuel rest

end

/-! ## Node Transformer and built-in tag plugins
(transformer.py, tag_plugins/conditional.py, tag_plugins/for_each.py,
tag_plugins/raw.py)

The built-in plugins form a closed inductive; a registry maps tag
names to them as the engine's global registration does at module load.
Plugin invocation, node transformation and child transformation are a
fuel-based mutual recursion (the source recursion is bounded by the
tree being rewritten; fuel is chosen large enough in every theorem).
The `PluginContext` of the source carries the node helpers, a
transformer factory over the same engine, the ambient scope and the
tag name; here the regs bundle and the explicit scope play those
roles. -/

inductive TagPlugin where
  | ifPlugin : TagPlugin
  | elseIfPlugin : TagPlugin
  | elsePlugin : TagPlugin
  | forEachPlugin : TagPlugin
  | rawPlugin : TagPlugin
deriving Repr, DecidableEq

/-- The registries a `NodeTransformer` reads: the engine's tag
registry (instance plus live global table) and its filter registry. -/
structure Regs where
  tagInst : TagPluginRegistry TagPlugin
  tagGlobal : List (String × TagPlugin)
  flt : Filters

/-- `_register_builtin_tag_plugins` (engine.py): the module-load
global registrations, in order. -/
def builtinTagGlobal : List (String × TagPlugin) :=
  TagPluginRegistry.registerGlobal
    (TagPluginRegistry.registerGlobal
      (TagPluginRegistry.registerGlobal
        (TagPluginRegistry.registerGlobal
          (TagPluginRegistry.registerGlobal [] .ifPlugin ["If"])
          .elseIfPlugin ["ElseIf"])
        .elsePlugin ["Else"])
      .forEachPlugin ["ForEach"])
    .rawPlugin ["Raw"]

/-- A transformer's result: `transform_node` returns one node or a
node list. -/
inductive NodeRes where
  | one (n : Node) : NodeRes
  | many (ns : List Node) : NodeRes
deriving Repr

/-- `_is_fragment_node` (transformer.py).  (Dead in practice: JSX
elements are dispatched to `_process_mdx_jsx_element` first.) -/
def isFragmentNode (n : Node) : Bool :=
  isMdxJsxElement n &&
    (match n.name with
     | none => true
     | some s => s = "" || s = "Fragment" || s = "React.Fragment")

/-- `_evaluate_expression_node` (transformer.py): evaluate and replace
with a stringified text node; any failure re-raises as a `ValueError`
carrying the expression text and the cause. -/
def evaluateExpressionNode (flt : Filters) (scope : Scope) (node : Node) :
    Except Err Node :=
  let expression := node.value
  match evaluate flt scope expression with
  | .ok v => .ok (textNode (stringifyValue v))
  | .error e =>
    .error (.valueError
      ("Error evaluating expression \"" ++ expression ++ "\": " ++ e.msg))

/-- The attribute loop of `_evaluate_props`: flags become `True`,
string literals stay strings, expression values are evaluated, spread
attributes raise. -/
def evaluatePropsAux (flt : Filters) (scope : Scope) (tagName : String) :
    List Attr → List (String × Value) → Except Err (List (String × Value))
  | [], acc => .ok acc
  | .jsxAttr name val :: rest, acc =>
    match val with
    | none =>
      evaluatePropsAux flt scope tagName rest (dictInsert acc name (.vbool true))
    | some (.str s) =>
      evaluatePropsAux flt scope tagName rest (dictInsert acc name (.vstr s))
    | some (.expr e) => do
      let v ← evaluate flt scope e
      evaluatePropsAux flt scope tagName rest (dictInsert acc name v)
  | .exprAttr _ :: _, _ =>
    .error (.valueError
      ("Unsupported attribute type in component <" ++ tagName ++ ">."))

/-- `_evaluate_props` (transformer.py). -/
def evaluateProps (flt : Filters) (scope : Scope) (node : Node) :
    Except Err (List (String × Value)) :=
  evaluatePropsAux flt scope (node.name.getD "unknown") node.attributes []

/-- `_are_all_list_items` (for_each.py): every node produced across
all iterations is a list container or a list item (vacuously true
over zero iterations). -/
def areAllListItems (resultsPerItem : List (List Node)) : Bool :=
  resultsPerItem.all (fun nodes =>
    nodes.all (fun n => n.ntype = ntList || n.ntype = ntListItem))

/-- `_collect_list_items` (for_each.py): splice list containers'
children, keep list items. -/
def collectListItems (resultsPerItem : List (List Node)) : List Node :=
  resultsPerItem.flatten.foldl
    (fun acc n =>
      if n.ntype = ntList then acc ++ n.childrenD
      else if n.ntype = ntListItem then acc ++ [n]
      else acc)
    []

mutual

/-- `transform_node` (transformer.py): expression nodes are evaluated,
JSX elements dispatched, other parents recursed into, leaves returned
unchanged. -/
def transformNode (regs : Regs) : Nat → Scope → Node →
    Except Err (NodeRes × Scope)
  | 0, _, _ => .error (.valueError "transformer fuel exhausted")
  | fuel + 1, scope, node =>
    if node.ntype = ntMdxTextExpression || node.ntype = ntMdxFlowExpression then
      match evaluateExpressionNode regs.flt scope node with
      | .ok n => .ok (.one n, scope)
      | .error e => .error e
    else if isMdxJsxElement node then
      processMdxJsxElement regs fuel scope node
    else if isFragmentNode node then
      -- unreachable in practice, mirrored from the source
      match transformChildren regs fuel scope node.childrenD with
      | .ok (cs, s1) => .ok (.many cs, s1)
      | .error e => .error e
    else if isParentNode node then
      match transformChildren regs fuel scope node.childrenD with
      | .ok (cs, s1) => .ok (.one (node.withChildren cs), s1)
      | .error e => .error e
    else .ok (.one node, scope)

/-- `transform_children` (transformer.py): left-to-right, flattening
each child's (possibly list) result into one flat list, threading the
ambient scope. -/
def transformChildren (regs : Regs) : Nat → Scope → List Node →
    Except Err (List Node × Scope)
  | 0, _, _ => .error (.valueError "transformer fuel exhausted")
  | _fuel + 1, scope, [] => .ok ([], scope)
  | fuel + 1, scope, c :: rest => do
    let (res, s1) ← transformNode regs fuel scope c
    let flat := match res with | .one n => [n] | .many ns => ns
    let (others, s2) ← transformChildren regs fuel s1 rest
    .ok (flat ++ others, s2)

/-- `_process_mdx_jsx_element` (transformer.py): evaluate props and
dispatch to the registered plugin, or transform children transparently
when no plugin matches; every failure inside is caught and re-raised
as the coarse element-processing `ValueError` retaining the cause. -/
def processMdxJsxElement (regs : Regs) : Nat → Scope → Node →
    Except Err (NodeRes × Scope)
  | 0, _, _ => .error (.valueError "transformer fuel exhausted")
  | fuel + 1, scope, node =>
    let inner : Except Err (NodeRes × Scope) :=
      let plugin :=
        match node.name with
        | some nm => regs.tagInst.get regs.tagGlobal nm
        | none => none
      match plugin with
      | some p => do
        let props ← evaluateProps regs.flt scope node
        let children := node.childrenD
        let (result, s1) ← pluginTransform regs fuel p props children scope
        .ok (.many result, s1)
      | none => do
        let (cs, s1) ← transformChildren regs fuel scope node.childrenD
        .ok (.one (node.withChildren cs), s1)
    match inner with
    | .error e =>
      .error (.valueError ("Error processing MDX JSX Element: " ++ e.msg))
    | ok => ok

/-- The built-in plugins' `transform` methods (conditional.py,
for_each.py, raw.py), dispatched on the plugin value. -/
def pluginTransform (regs : Regs) : Nat → TagPlugin → List (String × Value) →
    List Node → Scope → Except Err (List Node × Scope)
  | 0, _, _, _, _ => .error (.valueError "transformer fuel exhausted")
  | fuel + 1, .ifPlugin, props, children, scope =>
    -- IfPlugin: store bool(condition) into the ambient scope, then
    -- render children only when truthy.
    let condition := (dictGet props "condition").getD (.vbool false)
    let scope1 := scope.setLocal "__condition_met" (.vbool condition.truthy)
    if condition.truthy then transformChildren regs fuel scope1 children
    else .ok ([], scope1)
  | fuel + 1, .elseIfPlugin, props, children, scope =>
    -- ElseIfPlugin: a previously met condition short-circuits to
    -- empty; otherwise a truthy condition sets the flag and renders.
    let conditionMet := scope.getLocal "__condition_met"
    if (conditionMet.map Value.truthy).getD false then .ok ([], scope)
    else
      let condition := (dictGet props "condition").getD (.vbool false)
      if condition.truthy then
        let scope1 := scope.setLocal "__condition_met" (.vbool true)
        transformChildren regs fuel scope1 children
      else .ok ([], scope)
  | fuel + 1, .elsePlugin, _props, children, scope =>
    -- ElsePlugin: render children unless a previous condition matched.
    let conditionMet := scope.getLocal "__condition_met"
    if (conditionMet.map Value.truthy).getD false then .ok ([], scope)
    else transformChildren regs fuel scope children
  | fuel + 1, .forEachPlugin, props, children, scope =>
    -- ForEachPlugin: a non-list arr gives an empty result before any
    -- child validation; then exactly one function child is required.
    let arr := (dictGet props "arr").getD (.vlist [])
    match arr with
    | .vlist items =>
      match children with
      | [child] =>
        if hasFunctionBody child then
          let fb := getFunctionBody child
          let argumentNames := fb.1
          let body := if fb.2.isEmpty then extractBodyFromExpression child else fb.2
          let itemParamName := argumentNames[0]?
          let indexParamName := argumentNames[1]?
          do
            let resultsPerItem ←
              forEachLoop regs fuel scope itemParamName indexParamName body items 0
            let resultNodes := resultsPerItem.flatten
            if areAllListItems resultsPerItem then
              .ok ([listNode (collectListItems resultsPerItem)], scope)
            else .ok (resultNodes, scope)
        else .error (.valueError "ForEach expects a function as its child.")
      | _ => .error (.valueError "ForEach expects exactly one child function.")
    | _ => .ok ([], scope)
  | fuel + 1, .rawPlugin, _props, children, scope =>
    -- RawPlugin: serialize children back to markdown-like text.
    .ok ([textNode (toMarkdownList fuel children)], scope)

/-- The per-element loop of `ForEachPlugin.transform`: a fresh child
scope binding the (truthy-named) item and index parameters, the body
transformed against it, outputs collected per item.  The child scope's
mutations die with the iteration; the ambient scope is untouched. -/
def forEachLoop (regs : Regs) : Nat → Scope → Option String → Option String →
    List Node → List Value → Nat → Except Err (List (List Node))
  | 0, _, _, _, _, _, _ => .error (.valueError "transformer fuel exhausted")
  | _fuel + 1, _, _, _, _, [], _ => .ok []
  | fuel + 1, scope, itemParam, indexParam, body, item :: rest, index => do
    let childVars : List (String × Value) :=
      match itemParam with
      | some p => if p = "" then [] else [(p, item)]
      | none => []
    let childVars :=
      match indexParam with
      | some p => if p = "" then childVars
                  else dictInsert childVars p (.vint (index : Int))
      | none => childVars
    let itemScope := scope.createChild childVars
    let (processed, _) ← transformChildren regs fuel itemScope body
    let restResults ← forEachLoop regs fuel scope itemParam indexParam body rest (index + 1)
    .ok (processed :: restResults)

end

/-- The root node a multi-node result is re-wrapped into. -/
def rootNode (cs : List Node) : Node :=
  .mk "root" "" none [] (some cs) false false

/-- `NodeTransformer.transform` (transformer.py): transform the tree,
re-wrapping a node-list result in a root container. -/
def transformTree (regs : Regs) (fuel : Nat) (scope : Scope) (tree : Node) :
    Except Err Node := do
  let (res, _) ← transformNode regs fuel scope tree
  match res with
  | .one n => .ok n
  | .many ns => .ok (rootNode ns)

/-- `TemplateDX.transform` (engine.py): wrap props as
`{"props": props}`, bind the root scope over them and the shared map,
and run the transformer. -/
def engineTransform (regs : Regs) (fuel : Nat)
    (props shared : List (String × Value)) (tree : Node) : Except Err Node :=
  let scope := Scope.mk [("props", Value.vmap props)] shared none
  transformTree regs fuel scope tree

/-! ## Concrete fixtures shared by the theorems -/

/-- A filter bundle with nothing registered. -/
def emptyFilters : Filters := ⟨⟨[]⟩, []⟩

/-- An empty root scope. -/
def emptyScope : Scope := .mk [] [] none

/-- The registries of a freshly constructed engine: the built-in tag
plugins, no filters. -/
def builtinRegs : Regs :=
  ⟨TagPluginRegistry.construct builtinTagGlobal, builtinTagGlobal, emptyFilters⟩

/-! ## Helper lemmas about the dict model -/

theorem dictGet_map_replace {α : Type} (m : List (String × α)) (k : String) (v : α)
    (h : (dictGet m k).isSome) :
    dictGet (m.map (fun kv => if kv.1 = k then (k, v) else kv)) k = some v := by
  induction m with
  | nil => simp [dictGet] at h
  | cons kv rest ih =>
    obtain ⟨k1, v1⟩ := kv
    by_cases hk : k1 = k
    · subst hk
      simp only [List.map_cons]
      simp [dictGet]
    · have h' : (dictGet rest k).isSome := by
        simpa [dictGet, hk] using h
      simp only [List.map_cons]
      rw [show (if (k1, v1).1 = k then (k, v) else (k1, v1)) = (k1, v1) from if_neg hk]
      simpa [dictGet, hk] using ih h'

theorem dictGet_append_single {α : Type} (m : List (String × α)) (k : String) (v : α)
    (h : dictGet m k = none) :
    dictGet (m ++ [(k, v)]) k = some v := by
  induction m with
  | nil => simp [dictGet]
  | cons kv rest ih =>
    obtain ⟨k1, v1⟩ := kv
    by_cases hk : k1 = k
    · simp [dictGet, hk] at h
    · have h' : dictGet rest k = none := by simpa [dictGet, hk] using h
      simpa [dictGet, hk] using ih h'

theorem dictGet_insert_self {α : Type} (m : List (String × α)) (k : String) (v : α) :
    dictGet (dictInsert m k v) k = some v := by
  unfold dictInsert
  by_cases h : (dictGet m k).isSome
  · simp [h, dictGet_map_replace m k v h]
  · have h' : dictGet m k = none := by
      cases hg : dictGet m k with
      | none => rfl
      | some w => rw [hg] at h; simp at h
    simp [h, dictGet_append_single m k v h']

theorem dictGet_remove_self {α : Type} (m : List (String × α)) (k : String) :
    dictGet (dictRemove m k) k = none := by
  induction m with
  | nil => rfl
  | cons kv rest ih =>
    by_cases hk : kv.1 = k
    · simpa [dictRemove, hk] using ih
    · simpa [dictRemove, dictGet, hk] using ih

/-! ## The claims -/

/-- Claim C1, counterexample: an engine-style instance registry is
constructed while the global table is empty; `register_global` then
adds `"fmt"`; the instance's `get` resolves `"fmt"` through the live
global fallback — the registration made after construction is visible,
not invisible. -/
theorem c1_counterexample :
    FilterRegistry.get (FilterRegistry.construct ([] : List (String × Nat)))
      (FilterRegistry.registerGlobal [] "fmt" 7) "fmt" = some 7 := rfl

/-- Claim C1, amended: instance lookup checks the instance table
first, but a name absent from the instance table is resolved against
the CURRENT global table, so a global registration performed after the
instance was constructed is visible to that instance whenever the name
is not shadowed by an instance entry — for both the filter and the tag
two-tier registries. -/
theorem c1_global_fallback_is_live
    {F P : Type} (inst : FilterRegistry F) (tinst : TagPluginRegistry P)
    (g : List (String × F)) (tg : List (String × P)) (name : String) (f : F) (p : P)
    (hf : dictGet inst.filters name = none)
    (ht : dictGet tinst.plugins name = none) :
    FilterRegistry.get inst (FilterRegistry.registerGlobal g name f) name = some f ∧
    TagPluginRegistry.get tinst (TagPluginRegistry.registerGlobal tg p [name]) name
      = some p := by
  constructor
  · simp [FilterRegistry.get, FilterRegistry.registerGlobal, hf, Option.orElse,
      dictGet_insert_self]
  · simp [TagPluginRegistry.get, TagPluginRegistry.registerGlobal, ht, Option.orElse,
      dictGet_insert_self]

/-- Claim C1, witness for the amended statement. -/
theorem c1_witness :
    FilterRegistry.get (⟨[]⟩ : FilterRegistry Nat)
      (FilterRegistry.registerGlobal [] "fmt" 7) "fmt" = some 7 ∧
    TagPluginRegistry.get (⟨[]⟩ : TagPluginRegistry Nat)
      (TagPluginRegistry.registerGlobal [] 5 ["fmt"]) "fmt" = some 5 :=
  c1_global_fallback_is_live ⟨[]⟩ ⟨[]⟩ [] [] "fmt" 7 5 rfl rfl

/-- Claim C10: for a name present in the live global table, the
instance-level `remove` only deletes the instance entry; a subsequent
instance `get` falls back to the global table and still returns the
global entry, for both registries. -/
theorem c10_remove_cannot_disable_globals
    {F P : Type} (inst : FilterRegistry F) (tinst : TagPluginRegistry P)
    (g : List (String × F)) (tg : List (String × P)) (name : String) (f : F) (p : P)
    (hf : dictGet g name = some f) (ht : dictGet tg name = some p) :
    FilterRegistry.get (inst.remove name) g name = some f ∧
    TagPluginRegistry.get (tinst.remove name) tg name = some p := by
  constructor
  · simp [FilterRegistry.get, FilterRegistry.remove, dictGet_remove_self,
      Option.orElse, hf]
  · simp [TagPluginRegistry.get, TagPluginRegistry.remove, dictGet_remove_self,
      Option.orElse, ht]

/-- Claim C10, witness: a built-in-style global entry survives an
instance-level remove. -/
theorem c10_witness :
    FilterRegistry.get (FilterRegistry.remove
        (FilterRegistry.construct [("upper", 3)]) "upper") [("upper", 3)] "upper"
      = some 3 ∧
    TagPluginRegistry.get (TagPluginRegistry.remove
        (TagPluginRegistry.construct [("upper", 1)]) "upper") [("upper", 1)] "upper"
      = some 1 :=
  c10_remove_cannot_disable_globals
    (FilterRegistry.construct [("upper", 3)])
    (TagPluginRegistry.construct [("upper", 1)])
    [("upper", 3)] [("upper", 1)] "upper" 3 1 rfl rfl

/-- Claim C2, counterexample: the ambient scope already has
`__condition_met = True`, yet transforming an ElseIf element whose
condition expression is `1/0` raises the element-processing error
wrapping "Division by zero" instead of returning an empty node list —
because `_process_mdx_jsx_element` evaluates the attribute expressions
before the plugin can short-circuit. -/
theorem c2_counterexample :
    transformNode builtinRegs 5 (Scope.mk [("__condition_met", .vbool true)] [] none)
      (elemNode "ElseIf" [.jsxAttr "condition" (some (.expr "1/0"))] [textNode "x"])
      = .error (.valueError "Error processing MDX JSX Element: Division by zero") := rfl

/-- Claim C2, amended: when `__condition_met` is already truthy, the
ElseIf PLUGIN returns an empty node list without inspecting its
(already evaluated) condition prop and without transforming its
children; however the condition attribute expression itself is
evaluated by the transformer while building the props, before the
plugin is invoked, so an evaluation error in that expression still
aborts the element. -/
theorem c2_elseif_plugin_short_circuits
    (regs : Regs) (fuel : Nat) (props : List (String × Value))
    (children : List Node) (scope : Scope)
    (h : (Option.map Value.truthy (scope.getLocal "__condition_met")).getD false
          = true) :
    pluginTransform regs (fuel + 1) .elseIfPlugin props children scope
      = .ok ([], scope) := by
  simp [pluginTransform, h]

/-- Claim C2, witness for the amended statement. -/
theorem c2_witness :
    pluginTransform builtinRegs 1 .elseIfPlugin [("condition", .vint 1)]
      [textNode "x"] (Scope.mk [("__condition_met", .vbool true)] [] none)
      = .ok ([], Scope.mk [("__condition_met", .vbool true)] [] none) :=
  c2_elseif_plugin_short_circuits builtinRegs 0 [("condition", .vint 1)]
    [textNode "x"] (Scope.mk [("__condition_met", .vbool true)] [] none) rfl

/-- Claim C3: with both operands evaluated and the right operand equal
to zero under Python `==`, evaluating `l / r` raises the
"Division by zero" evaluation error and `l % r` the "Modulo by zero"
one (the value model carries only finite rationals, so no infinity or
NaN can be produced). -/
theorem c3_div_mod_by_zero_raise
    (flt : Filters) (scope : Scope) (a b : AST) (l r : Value)
    (ha : evalNode flt scope a = .ok l) (hb : evalNode flt scope b = .ok r)
    (hz : r.pyEq (.vint 0) = true) :
    evalNode flt scope (.binary "/" a b)
      = .error (.evaluationError "Division by zero") ∧
    evalNode flt scope (.binary "%" a b)
      = .error (.evaluationError "Modulo by zero") := by
  constructor <;>
    simp [evalNode, ha, hb, applyBinaryOp, hz, Bind.bind, Except.bind]

/-- Claim C3, witness at `1 / 0` and `1 % 0`. -/
theorem c3_witness :
    evalNode emptyFilters emptyScope (.binary "/" (.lit (.vint 1)) (.lit (.vint 0)))
      = .error (.evaluationError "Division by zero") ∧
    evalNode emptyFilters emptyScope (.binary "%" (.lit (.vint 1)) (.lit (.vint 0)))
      = .error (.evaluationError "Modulo by zero") :=
  c3_div_mod_by_zero_raise emptyFilters emptyScope
    (.lit (.vint 1)) (.lit (.vint 0)) (.vint 1) (.vint 0) rfl rfl rfl

/-- Claim C4: member access with a non-null base and a string property
name starting with `_` raises the private-attribute evaluation error
before any container dispatch, for the dotted form and (when the
computed property expression evaluates to such a string) the computed
form alike. -/
theorem c4_private_attribute_access_raises
    (flt : Filters) (scope : Scope) (o p : AST) (v : Value) (name : String)
    (ho : evalNode flt scope o = .ok v) (hv : v ≠ .vnull)
    (hn : strStartsWith name "_" = true) :
    evalNode flt scope (.member o (.identE name) false)
      = .error (.evaluationError
          ("Access to private attribute '" ++ name ++ "' is not allowed")) ∧
    (evalNode flt scope p = .ok (.vstr name) →
      evalNode flt scope (.member o p true)
        = .error (.evaluationError
            ("Access to private attribute '" ++ name ++ "' is not allowed"))) := by
  constructor
  · cases v <;>
      first
      | exact absurd rfl hv
      | simp [evalNode, ho, memberAccess, hn, Bind.bind, Except.bind]
  · intro hp
    cases v <;>
      first
      | exact absurd rfl hv
      | simp [evalNode, ho, hp, memberAccess, hn, Bind.bind, Except.bind]

/-- Claim C4, witness on a map base and `_secret`. -/
theorem c4_witness :
    evalNode emptyFilters emptyScope
      (.member (.lit (.vmap [("x", .vint 1)])) (.identE "_secret") false)
      = .error (.evaluationError
          ("Access to private attribute '" ++ "_secret" ++ "' is not allowed")) ∧
    evalNode emptyFilters emptyScope
      (.member (.lit (.vmap [("x", .vint 1)])) (.lit (.vstr "_secret")) true)
      = .error (.evaluationError
          ("Access to private attribute '" ++ "_secret" ++ "' is not allowed")) := by
  have h := c4_private_attribute_access_raises emptyFilters emptyScope
    (.lit (.vmap [("x", .vint 1)])) (.lit (.vstr "_secret"))
    (.vmap [("x", .vint 1)]) "_secret" rfl (by simp) rfl
  exact ⟨h.1, h.2 rfl⟩

/-- Claim C5: member access on a null base returns the empty string
without raising and without even evaluating the property, so a dotted
access on an unresolved identifier — which `Scope.get` resolves to
null — evaluates to `""`, as in `evaluate("missing.prop")`. -/
theorem c5_null_member_access
    (flt : Filters) (scope : Scope) :
    (∀ (o p : AST) (c : Bool), evalNode flt scope o = .ok .vnull →
        evalNode flt scope (.member o p c) = .ok (.vstr "")) ∧
    (scope.get "missing" = .vnull →
        evaluate flt scope "missing.prop" = .ok (.vstr "")) := by
  constructor
  · intro o p c ho
    simp [evalNode, ho, Bind.bind, Except.bind]
  · intro h
    have hv : evalNode flt scope
        (.member (.identE "missing") (.identE "prop") false) = .ok (.vstr "") := by
      simp [evalNode, h, Bind.bind, Except.bind]
    have key : evaluate flt scope "missing.prop"
        = match evalNode flt scope
            (.member (.identE "missing") (.identE "prop") false) with
          | .error (.lexError m) =>
            .error (.evaluationError
              ("Failed to parse expression \"missing.prop\": " ++ m))
          | .error (.parseError m) =>
            .error (.evaluationError
              ("Failed to parse expression \"missing.prop\": " ++ m))
          | other => other := rfl
    rw [key, hv]

/-- Claim C5, witness in the empty scope. -/
theorem c5_witness :
    evalNode emptyFilters emptyScope
      (.member (.identE "missing") (.identE "prop") false) = .ok (.vstr "") ∧
    evaluate emptyFilters emptyScope "missing.prop" = .ok (.vstr "") :=
  ⟨(c5_null_member_access emptyFilters emptyScope).1
      (.identE "missing") (.identE "prop") false rfl,
   (c5_null_member_access emptyFilters emptyScope).2 rfl⟩

/-- Claim C6: for every scope and filter registry, the parser's
precedence table and left associativity give
`evaluate("1 + 2 * 3") = 7` and `evaluate("(1 + 2) * 3") = 9`. -/
theorem c6_operator_precedence (flt : Filters) (scope : Scope) :
    evaluate flt scope "1 + 2 * 3" = .ok (.vint 7) ∧
    evaluate flt scope "(1 + 2) * 3" = .ok (.vint 9) :=
  ⟨rfl, rfl⟩

/-- Claim C7: a ForEach whose `arr` prop is `["a","b","c"]` and whose
single child is the function `(item) => item` produces exactly three
output nodes in array order, each the text node obtained by
transforming the body against the per-element child scope binding
`item`, for every ambient scope and registries. -/
theorem c7_foreach_three_items (regs : Regs) (scope : Scope) (fuel : Nat) :
    pluginTransform regs (fuel + 6) .forEachPlugin
      [("arr", .vlist [.vstr "a", .vstr "b", .vstr "c"])]
      [exprNode "(item) => item"] scope
      = .ok ([textNode "a", textNode "b", textNode "c"], scope) := rfl

/-- Claim C8: a lex failure (such as an unterminated string literal) or
a parse failure is caught at the evaluator boundary and re-raised as an
EvaluationError whose message embeds the stripped expression text. -/
theorem c8_parse_failures_become_evaluation_errors
    (flt : Filters) (scope : Scope) (s m : String) :
    (tokenize (pyStrip s) = .error (.lexError m) →
      evaluate flt scope s = .error (.evaluationError
        ("Failed to parse expression \"" ++ pyStrip s ++ "\": " ++ m))) ∧
    (∀ toks, pyStrip s ≠ "" → tokenize (pyStrip s) = .ok toks →
      parseToks toks = .error (.parseError m) →
      evaluate flt scope s = .error (.evaluationError
        ("Failed to parse expression \"" ++ pyStrip s ++ "\": " ++ m))) := by
  constructor
  · intro h
    have hne : pyStrip s ≠ "" := by
      intro he
      rw [he] at h
      have hok : tokenize "" = .ok [Tok.eofTok] := rfl
      rw [hok] at h
      exact Except.noConfusion h
    simp [evaluate, hne, h, Bind.bind, Except.bind]
  · intro toks hne htok hparse
    simp [evaluate, hne, htok, hparse, Bind.bind, Except.bind]

/-- Claim C8, witness: an unterminated string literal and a dangling
operator each surface as an EvaluationError carrying the expression. -/
theorem c8_witness :
    evaluate emptyFilters emptyScope "\"abc"
      = .error (.evaluationError ("Failed to parse expression \""
          ++ pyStrip "\"abc" ++ "\": "
          ++ "Unterminated string starting at position 0")) ∧
    evaluate emptyFilters emptyScope "1 +"
      = .error (.evaluationError ("Failed to parse expression \""
          ++ pyStrip "1 +" ++ "\": " ++ "Unexpected token eof: None")) :=
  ⟨(c8_parse_failures_become_evaluation_errors emptyFilters emptyScope
      "\"abc" "Unterminated string starting at position 0").1 rfl,
   (c8_parse_failures_become_evaluation_errors emptyFilters emptyScope
      "1 +" "Unexpected token eof: None").2
      [.numTok (.vint 1), .opTok "+", .eofTok] (by decide) rfl rfl⟩

/-- Claim C9: a ForEach whose `arr` prop evaluates to the empty list
and whose single child is a function returns exactly one node — a
`list` container with an empty children array (the all-list-items
check is vacuously true over zero iterations) — and not the empty node
list that a non-list `arr` produces. -/
theorem c9_foreach_empty_arr
    (regs : Regs) (scope : Scope) (fuel : Nat) (child : Node)
    (h : hasFunctionBody child = true) :
    pluginTransform regs (fuel + 2) .forEachPlugin [("arr", .vlist [])]
      [child] scope
      = .ok ([listNode []], scope) := by
  simp [pluginTransform, h, forEachLoop, areAllListItems, collectListItems,
    dictGet, Bind.bind, Except.bind]

/-- Claim C9, witness with the `(item) => item` child. -/
theorem c9_witness :
    hasFunctionBody (exprNode "(item) => item") = true ∧
    pluginTransform builtinRegs 2 .forEachPlugin [("arr", .vlist [])]
      [exprNode "(item) => item"] emptyScope
      = .ok ([listNode []], emptyScope) :=
  ⟨rfl, c9_foreach_empty_arr builtinRegs emptyScope 0
    (exprNode "(item) => item") rfl⟩

end TemplateDX
